import Mathlib

/-!
Shallow embedding of the Spirit-Box ghost-journal core: the evidence
catalog, the deduction engine (`Journal.possibleGhosts`), the component
view (`Journal.asComponents`) and the session controller
(`CommandContext`), translated from the TypeScript source.
-/

/-- The seven evidence identifiers (`EVIDENCE_IDS`). -/
inductive EvidenceID where
  | dots
  | emf
  | freezing
  | orb
  | writing
  | box
  | uv
deriving DecidableEq, Repr

/-- IDs for all evidence types, in source order. -/
def EVIDENCE_IDS : List EvidenceID :=
  [.dots, .emf, .freezing, .orb, .writing, .box, .uv]

/-- Insertion order of the keys of the `evidences` record field.
`Object.entries` and `Object.values` iterate these string keys in this
order; it differs from `EVIDENCE_IDS` but only the multiset matters. -/
def EVIDENCE_KEY_ORDER : List EvidenceID :=
  [.dots, .emf, .uv, .freezing, .orb, .writing, .box]

/-- Maximum number of possible evidences (`MAX_EVIDENCES`). -/
def MAX_EVIDENCES : Int := 3

/-- States an evidence can be in (`EvidenceState`). -/
inductive EvidenceState where
  | PRESENT
  | INDEFINITE
  | ABSENT
deriving DecidableEq, Repr

/-- One catalog entry of `GHOSTS`: name, evidences, optional guaranteed
evidence and optional fake evidence. -/
structure GhostDef where
  name : String
  evidences : List EvidenceID
  guaranteed : Option EvidenceID := none
  fake : Option EvidenceID := none
deriving DecidableEq, Repr

/-- The catalog entry for Hantu. -/
def hantu : GhostDef :=
  { name := "Hantu", evidences := [.uv, .orb, .freezing], guaranteed := some .freezing }

/-- The catalog entry for The Mimic. -/
def theMimic : GhostDef :=
  { name := "The Mimic", evidences := [.box, .uv, .freezing], fake := some .orb }

/-- All ghosts in the game and their evidences (`GHOSTS`). -/
def GHOSTS : List GhostDef :=
  [ { name := "Spirit", evidences := [.emf, .box, .writing] },
    { name := "Wraith", evidences := [.emf, .box, .dots] },
    { name := "Phantom", evidences := [.box, .uv, .dots] },
    { name := "Poltergeist", evidences := [.box, .uv, .writing] },
    { name := "Banshee", evidences := [.uv, .orb, .dots] },
    { name := "Jinn", evidences := [.emf, .uv, .freezing] },
    { name := "Mare", evidences := [.box, .orb, .writing] },
    { name := "Revenant", evidences := [.orb, .writing, .freezing] },
    { name := "Shade", evidences := [.emf, .writing, .freezing] },
    { name := "Demon", evidences := [.uv, .writing, .freezing] },
    { name := "Yurei", evidences := [.orb, .freezing, .dots] },
    { name := "Oni", evidences := [.emf, .freezing, .dots] },
    { name := "Yokai", evidences := [.box, .orb, .dots] },
    hantu,
    { name := "Goryo", evidences := [.emf, .uv, .dots], guaranteed := some .dots },
    { name := "Myling", evidences := [.emf, .uv, .writing] },
    { name := "Onryo", evidences := [.box, .orb, .freezing] },
    { name := "The Twins", evidences := [.emf, .box, .freezing] },
    { name := "Raiju", evidences := [.emf, .orb, .dots] },
    { name := "Obake", evidences := [.emf, .uv, .orb], guaranteed := some .uv },
    theMimic,
    { name := "Moroi", evidences := [.box, .writing, .freezing], guaranteed := some .box },
    { name := "Deogen", evidences := [.box, .writing, .dots], guaranteed := some .box },
    { name := "Thaye", evidences := [.orb, .writing, .dots] } ]

/-- The `Journal` class state: evidence states plus the number of
evidences provided by the difficulty (`availableEvidences`). -/
structure Journal where
  evidences : EvidenceID → EvidenceState
  availableEvidences : Int

/-- The `Journal` constructor: every evidence defaults to `INDEFINITE`
and the given states override the defaults (`Object.assign`). -/
def mkJournal (states : List (EvidenceID × EvidenceState)) (availableEvidences : Int) : Journal :=
  { evidences := fun id =>
      match states.find? (fun p => p.1 == id) with
      | some p => p.2
      | none => EvidenceState.INDEFINITE,
    availableEvidences := availableEvidences }

/-- The value of `new Journal()` with both arguments defaulted. -/
def defaultJournal : Journal := mkJournal [] 3

/-- Evidences whose state is `PRESENT`, in object-key order
(the `present` local of `possibleGhosts`). -/
def presentIDs (j : Journal) : List EvidenceID :=
  EVIDENCE_KEY_ORDER.filter (fun id => decide (j.evidences id = EvidenceState.PRESENT))

/-- Evidences whose state is `ABSENT`, in object-key order
(the `absent` local of `possibleGhosts`). -/
def absentIDs (j : Journal) : List EvidenceID :=
  EVIDENCE_KEY_ORDER.filter (fun id => decide (j.evidences id = EvidenceState.ABSENT))

/-- The predicate of the `GHOSTS.filter` callback inside
`Journal.possibleGhosts`: `true` when the ghost survives every check.
The early-`return false` chain of the source is written as a
conjunction of the checks, in source order. -/
def ghostPossible (j : Journal) (present absent : List EvidenceID) (g : GhostDef) : Bool :=
  let presentWithoutFake := present.filter (fun e => decide (g.fake ≠ some e))
  -- Discard ghosts that don't have one or more of the found evidences,
  -- ignoring fake evidences.
  presentWithoutFake.all (fun e => decide (e ∈ g.evidences)) &&
  -- Discard ghosts that have more evidences than are possible to find,
  -- ignoring fake evidences.
  decide (¬((presentWithoutFake.length : Int) > j.availableEvidences)) &&
  -- Discard ghosts that have more absent evidences than evidences
  -- disabled by the difficulty.
  decide (¬(((absent.filter (fun e => decide (e ∈ g.evidences))).length : Int) >
    MAX_EVIDENCES - j.availableEvidences)) &&
  -- Discard ghosts whose guaranteed evidence is absent or unobtainable.
  -- `obtainableRemainingEvidences` recomputes the count of PRESENT
  -- states from the whole evidences record, as the source does.
  (match g.guaranteed with
   | none => true
   | some gu =>
     let isAbsent := decide (j.evidences gu = EvidenceState.ABSENT)
     let isPresent := decide (j.evidences gu = EvidenceState.PRESENT)
     let obtainableRemainingEvidences : Int :=
       j.availableEvidences - ((presentIDs j).length : Int)
     !(isAbsent || (!isPresent && decide (obtainableRemainingEvidences < 1)))) &&
  -- Discard ghosts whose fake evidence is absent, as it must be present.
  (match g.fake with
   | none => true
   | some f => decide (f ∉ absent))

/-- Model of `Journal.possibleGhosts`: names of the catalog entries that survive
all checks, in catalog order. -/
def possibleGhosts (j : Journal) : List String :=
  let present := presentIDs j
  let absent := absentIDs j
  (GHOSTS.filter (fun g => ghostPossible j present absent g)).map (fun g => g.name)

/-- The button-collector transition for one evidence state
(`buttonCollector.on("collect", ...)`, the three-branch cycle). -/
def toggleEvidence (state : EvidenceState) : EvidenceState :=
  if state = EvidenceState.ABSENT then EvidenceState.INDEFINITE
  else if state = EvidenceState.INDEFINITE then EvidenceState.PRESENT
  else EvidenceState.ABSENT

/-- Overwrite one evidence state with `ABSENT`, leaving the rest of the
journal unchanged. -/
def setAbsent (j : Journal) (a : EvidenceID) : Journal :=
  { j with evidences := fun id => if id = a then EvidenceState.ABSENT else j.evidences id }

/-- How many buttons there can be in an action row
(`MAX_BUTTONS_PER_ACTION_ROW`). -/
def MAX_BUTTONS_PER_ACTION_ROW : Nat := 5

/-- How many action rows there can be in a message
(`MAX_ACTION_ROWS_PER_MESSAGE`). -/
def MAX_ACTION_ROWS_PER_MESSAGE : Nat := 5

/-- The button styles used by `Journal.asComponents`. -/
inductive ButtonStyleE where
  | Primary
  | Secondary
  | Danger
deriving DecidableEq, Repr

/-- One option of the evidence-count select menu. -/
structure SelectOptionE where
  label : String
  description : String
  value : String
  isDefault : Bool
deriving DecidableEq, Repr

/-- One evidence button as built by `Journal.asComponents`. -/
structure ButtonE where
  customId : EvidenceID
  label : String
  style : ButtonStyleE
deriving DecidableEq, Repr

/-- An action row: either the select-menu row or a row of buttons. -/
inductive RowE where
  | select (customId : String) (placeholder : String) (options : List SelectOptionE)
  | buttons (bs : List ButtonE)
deriving DecidableEq, Repr

/-- Labels for each evidence ID (`Journal.#LABELS`). -/
def LABELS : EvidenceID → String
  | .dots => "D.O.T.S Projector"
  | .emf => "EMF Level 5"
  | .uv => "Ultraviolet"
  | .freezing => "Freezing Temperatures"
  | .orb => "Ghost Orb"
  | .writing => "Ghost Writing"
  | .box => "Spirit Box"

/-- The three options added to the evidence-count select menu, in the
order they are added ("3", "2", "1"). -/
def evidenceCountOptions : List SelectOptionE :=
  [ { label := "3 evidences",
      description := "The ghost can show up to three evidences.",
      value := "3", isDefault := false },
    { label := "2 evidences",
      description := "The ghost can show up to two evidences.",
      value := "2", isDefault := false },
    { label := "1 evidence",
      description := "The ghost can show up to one evidence.",
      value := "1", isDefault := false } ]

/-- Fuel-driven worker for `chunkList`; the fuel is the list length, so
it never runs out when the chunk size is positive. -/
def chunkGo (fuel : Nat) (n : Nat) (l : List ButtonE) : List (List ButtonE) :=
  match fuel, l with
  | _, [] => []
  | 0, _ :: _ => []
  | fuel + 1, l@(_ :: _) => l.take n :: chunkGo fuel n (l.drop n)

/-- lodash `_.chunk`: splits a list into groups of length `n`, the last
group holding the remainder; `_.chunk(l, 0)` is the empty list. -/
def chunkList (n : Nat) (l : List ButtonE) : List (List ButtonE) :=
  if n = 0 then [] else chunkGo l.length n l

/-- Model of `Journal.asComponents`, with the two throwing paths made explicit:
indexing `options` out of range (a TypeError in the source when
`availableEvidences` is outside 1..3) and the "Too many rows" guard. -/
def asComponents (j : Journal) : Except String (List RowE) :=
  let idx : Int := MAX_EVIDENCES - j.availableEvidences
  if h : 0 ≤ idx ∧ idx.toNat < evidenceCountOptions.length then
    let chosen := evidenceCountOptions.get ⟨idx.toNat, h.2⟩
    let options := evidenceCountOptions.set idx.toNat { chosen with isDefault := true }
    let selectRow := RowE.select "evidence_count" "Evidence count" options
    let buttons := EVIDENCE_IDS.map (fun id =>
      { customId := id,
        label := LABELS id,
        style :=
          if j.evidences id = EvidenceState.PRESENT then ButtonStyleE.Primary
          else if j.evidences id = EvidenceState.INDEFINITE then ButtonStyleE.Secondary
          else ButtonStyleE.Danger : ButtonE })
    let rows := selectRow :: (chunkList MAX_BUTTONS_PER_ACTION_ROW buttons).map RowE.buttons
    if rows.length > MAX_ACTION_ROWS_PER_MESSAGE then Except.error "Too many rows"
    else Except.ok rows
  else Except.error "TypeError: setDefault of undefined"

/-- How long it takes for the journal to close after the last
interaction (`CommandContext.#IDLE_TIME`, milliseconds). -/
def IDLE_TIME : Nat := 3600000

/-- The observable state of one `CommandContext` session: the invite
list, the journal, the idle deadline (`none` when no timer is armed)
and the terminated flag. -/
structure SessionState where
  allowedUserIDs : List String
  evidences : Journal
  idleDeadline : Option Nat
  terminated : Bool

/-- Model of `CommandContext.#terminate`: clears the idle timer, sets the
terminated flag, stops the collectors and best-effort deletes the
message (failures swallowed). -/
def terminate (s : SessionState) : SessionState :=
  { s with idleDeadline := none, terminated := true }

/-- Model of `CommandContext.#canInteract`: membership in the allow-list
(`this.#allowedUserIDs.includes(user.id)`). -/
def canInteract (s : SessionState) (userId : String) : Bool :=
  decide (userId ∈ s.allowedUserIDs)

/-- Model of `CommandContext.#refreshTimeout`: `this.#idleTimeout?.refresh()` —
re-arms the timer when one exists, otherwise does nothing. -/
def refreshTimeout (s : SessionState) (now : Nat) : SessionState :=
  match s.idleDeadline with
  | some _ => { s with idleDeadline := some (now + IDLE_TIME) }
  | none => s

/-- Model of `CommandContext.#updateMessage`: dispatches the re-render; on
dispatch failure the catch handler is `this.#terminate.bind(this)`
applied as a function, so the session terminates. -/
def updateMessage (s : SessionState) (renderOk : Bool) : SessionState :=
  if renderOk then s else terminate s

/-- The async body of the `CommandContext` constructor as a function of
the capability check and the initial reply dispatch outcome. On reply
failure the catch handler is `() => { this.#terminate.bind(this); }`:
it builds the bound function and discards it without calling it, so no
state changes; `#message` stays null and the body returns before the
collectors and the idle timer are set up. -/
def constructorSetup (now : Nat) (capabilityOk : Bool) (invokerId : String)
    (additionalIds : List String) (renderOk : Bool) : SessionState :=
  let s0 : SessionState :=
    { allowedUserIDs := [], evidences := defaultJournal,
      idleDeadline := none, terminated := false }
  if !capabilityOk then terminate s0
  else
    let s1 := { s0 with allowedUserIDs := invokerId :: additionalIds }
    if renderOk then { s1 with idleDeadline := some (now + IDLE_TIME) }
    else s1

/-- What the session sends back for one component interaction. -/
inductive InteractionReply where
  | denial
  | updated
  | updateFailed
deriving DecidableEq, Repr

/-- The button collector's collect callback: refresh the idle timer,
cycle the evidence state, update the message. -/
def onButtonCollect (s : SessionState) (now : Nat) (id : EvidenceID)
    (renderOk : Bool) : SessionState :=
  let s1 := refreshTimeout s now
  let j := s1.evidences
  let s2 := { s1 with evidences :=
    { j with evidences := fun i => if i = id then toggleEvidence (j.evidences i) else j.evidences i } }
  updateMessage s2 renderOk

/-- The evidence-count collector's collect callback: refresh the idle
timer, overwrite `availableEvidences` with the parsed value of the
selected option, update the message. The source applies `parseInt` to
`interaction.values[0]` with no range validation; `value` here is that
parsed integer. -/
def onEvidenceCountCollect (s : SessionState) (now : Nat) (value : Int)
    (renderOk : Bool) : SessionState :=
  let s1 := refreshTimeout s now
  let s2 := { s1 with evidences := { s1.evidences with availableEvidences := value } }
  updateMessage s2 renderOk

/-- One button interaction as seen through `interactionFilter`: an
actor outside the allow-list gets the ephemeral denial reply and the
collector never runs its callback; otherwise the collect callback
runs. -/
def handleButtonEvent (s : SessionState) (now : Nat) (userId : String)
    (id : EvidenceID) (renderOk : Bool) : SessionState × InteractionReply :=
  if !canInteract s userId then (s, InteractionReply.denial)
  else (onButtonCollect s now id renderOk,
        if renderOk then InteractionReply.updated else InteractionReply.updateFailed)

/-- One select-menu interaction as seen through `interactionFilter`. -/
def handleSelectEvent (s : SessionState) (now : Nat) (userId : String)
    (value : Int) (renderOk : Bool) : SessionState × InteractionReply :=
  if !canInteract s userId then (s, InteractionReply.denial)
  else (onEvidenceCountCollect s now value renderOk,
        if renderOk then InteractionReply.updated else InteractionReply.updateFailed)

/-- A session that completed setup normally: capability check passed
and the initial render succeeded. -/
def activeSession : SessionState := constructorSetup 0 true "owner" ["friend"] true

/- Helper lemmas about the catalog and the deduction engine. -/

theorem ghost_names_nodup : (GHOSTS.map (fun g => g.name)).Nodup := by decide

theorem guaranteed_no_fake :
    ∀ g ∈ GHOSTS, g.guaranteed.isSome = true → g.fake = none := by decide

theorem mem_possibleGhosts :
    ∀ (j : Journal) (s : String), s ∈ possibleGhosts j ↔
      ∃ g, (g ∈ GHOSTS ∧ ghostPossible j (presentIDs j) (absentIDs j) g = true) ∧
        g.name = s := by
  intro j s
  simp [possibleGhosts]

theorem ghostPossible_true_of_mem (j : Journal) (g : GhostDef) (hg : g ∈ GHOSTS)
    (hmem : g.name ∈ possibleGhosts j) :
    ghostPossible j (presentIDs j) (absentIDs j) g = true := by
  rw [mem_possibleGhosts] at hmem
  obtain ⟨g', ⟨hg', hp⟩, hname⟩ := hmem
  have : g' = g := List.inj_on_of_nodup_map ghost_names_nodup hg' hg hname
  rwa [this] at hp

theorem filter_length_mono_of_imp {α : Type} (l : List α) (p q : α → Bool)
    (h : ∀ x ∈ l, p x = true → q x = true) :
    (l.filter p).length ≤ (l.filter q).length := by
  induction l with
  | nil => simp
  | cons a t ih =>
    have ht := ih (fun x hx => h x (List.mem_cons_of_mem a hx))
    rw [List.filter_cons, List.filter_cons]
    by_cases hp : p a = true
    · rw [if_pos hp, if_pos (h a (List.mem_cons_self a t) hp)]
      simpa using ht
    · rw [if_neg hp]
      by_cases hq : q a = true
      · rw [if_pos hq]
        exact le_trans ht (by simp)
      · rw [if_neg hq]
        exact ht

theorem presentIDs_setAbsent (j : Journal) (a : EvidenceID)
    (h : j.evidences a ≠ EvidenceState.PRESENT) :
    presentIDs (setAbsent j a) = presentIDs j := by
  unfold presentIDs
  refine List.filter_congr ?_
  intro id _
  by_cases hid : id = a
  · subst hid
    simp [setAbsent, h]
  · simp [setAbsent, hid]

theorem absentIDs_mem_mono (j : Journal) (a : EvidenceID) :
    ∀ e, e ∈ absentIDs j → e ∈ absentIDs (setAbsent j a) := by
  intro e he
  simp only [absentIDs, List.mem_filter, decide_eq_true_eq] at he ⊢
  refine ⟨he.1, ?_⟩
  by_cases hid : e = a
  · subst hid
    simp [setAbsent]
  · simpa [setAbsent, hid] using he.2

theorem absentIDs_filter_length_mono (j : Journal) (a : EvidenceID)
    (p : EvidenceID → Bool) :
    ((absentIDs j).filter p).length ≤ ((absentIDs (setAbsent j a)).filter p).length := by
  unfold absentIDs
  rw [List.filter_filter, List.filter_filter]
  refine filter_length_mono_of_imp _ _ _ ?_
  intro x _ hx
  simp only [Bool.and_eq_true, decide_eq_true_eq] at hx ⊢
  refine ⟨hx.1, ?_⟩
  by_cases hid : x = a
  · subst hid
    simp [setAbsent]
  · simpa [setAbsent, hid] using hx.2

/-- C2: for The Mimic (attributes box, uv, freezing, fake orb) with
ceiling 3: orb absent excludes The Mimic; orb present with everything
else unknown keeps The Mimic possible, and orb is removed from the
present set before the membership and count checks (so it is not
counted toward the ceiling). -/
theorem c2_mimic_fake_orb :
    "The Mimic" ∉ possibleGhosts (mkJournal [(.orb, .ABSENT)] 3) ∧
    "The Mimic" ∈ possibleGhosts (mkJournal [(.orb, .PRESENT)] 3) ∧
    (presentIDs (mkJournal [(.orb, .PRESENT)] 3)).filter
      (fun e => decide (theMimic.fake ≠ some e)) = [] := by decide

/-- C3: for every observation set in which every attribute is unknown
and the ceiling is 1, 2 or 3, `possibleGhosts` returns the names of all
24 catalog entries in catalog order. -/
theorem c3_all_unknown_full_catalog (j : Journal)
    (hunk : ∀ id, j.evidences id = EvidenceState.INDEFINITE)
    (hc : j.availableEvidences = 1 ∨ j.availableEvidences = 2 ∨ j.availableEvidences = 3) :
    possibleGhosts j = GHOSTS.map (fun g => g.name) ∧ GHOSTS.length = 24 := by
  have hpres : presentIDs j = [] := by simp [presentIDs, hunk]
  have habs : absentIDs j = [] := by simp [absentIDs, hunk]
  refine ⟨?_, by decide⟩
  show (GHOSTS.filter (fun g => ghostPossible j (presentIDs j) (absentIDs j) g)).map
      (fun g => g.name) = GHOSTS.map (fun g => g.name)
  rw [hpres, habs]
  have hall : GHOSTS.filter (fun g => ghostPossible j [] [] g) = GHOSTS := by
    rw [List.filter_eq_self]
    intro g _
    rcases hgu : g.guaranteed with _ | gu <;> rcases hf : g.fake with _ | f <;>
      rcases hc with h | h | h <;>
        simp [ghostPossible, hgu, hf, hpres, h, MAX_EVIDENCES, hunk]
  rw [hall]

/-- Witness for C3 at the default journal (all unknown, ceiling 3). -/
theorem c3_witness :
    possibleGhosts defaultJournal = GHOSTS.map (fun g => g.name) ∧ GHOSTS.length = 24 :=
  c3_all_unknown_full_catalog defaultJournal (fun _ => rfl) (Or.inr (Or.inr rfl))

/-- C4 (code bug): the re-render failure after an accepted mutation
terminates the session, but a failure of the initial render reply does
not — the constructor's catch handler builds `this.#terminate.bind(this)`
without invoking it, so the session never transitions to terminated on
that path. -/
theorem c4_render_failure_divergence :
    (constructorSetup 0 true "owner" [] false).terminated = false ∧
    ((handleButtonEvent activeSession 5 "owner" EvidenceID.emf false).1).terminated = true := by
  constructor <;> rfl

/-- C6: the attribute toggle maps absent to unknown, unknown to
present and present to absent, so three applications restore any
state. -/
theorem c6_toggle_cycle :
    (toggleEvidence EvidenceState.ABSENT = EvidenceState.INDEFINITE ∧
     toggleEvidence EvidenceState.INDEFINITE = EvidenceState.PRESENT ∧
     toggleEvidence EvidenceState.PRESENT = EvidenceState.ABSENT) ∧
    ∀ s : EvidenceState, toggleEvidence (toggleEvidence (toggleEvidence s)) = s :=
  ⟨⟨rfl, rfl, rfl⟩, fun s => by cases s <;> rfl⟩

/-- C7: an interaction from a user outside the allow-list yields the
denial reply and returns the session state unchanged — same attribute
states, same ceiling, same idle deadline — for both the button and the
select-menu collectors; no render happens on that path. -/
theorem c7_unauthorized_rejected (s : SessionState) (now : Nat) (u : String)
    (id : EvidenceID) (v : Int) (renderOk : Bool)
    (h : u ∉ s.allowedUserIDs) :
    handleButtonEvent s now u id renderOk = (s, InteractionReply.denial) ∧
    handleSelectEvent s now u v renderOk = (s, InteractionReply.denial) := by
  have hc : canInteract s u = false := by simp [canInteract, h]
  simp [handleButtonEvent, handleSelectEvent, hc]

/-- Witness for C7: a concrete uninvited user against the concrete
active session. -/
theorem c7_witness :
    handleButtonEvent activeSession 5 "mallory" EvidenceID.emf true
      = (activeSession, InteractionReply.denial) ∧
    handleSelectEvent activeSession 5 "mallory" 2 true
      = (activeSession, InteractionReply.denial) :=
  c7_unauthorized_rejected activeSession 5 "mallory" EvidenceID.emf 2 true (by decide)

/-- C9: catalog invariants — 24 entries, each with exactly 3
attributes; every guaranteed attribute is one of its entry's
attributes; no entry has both a guaranteed and a fake attribute; the
only fake attribute is The Mimic's orb, which is not in its entry's
attribute list. -/
theorem c9_catalog_invariants :
    GHOSTS.length = 24 ∧
    (GHOSTS.all fun g => g.evidences.length == 3) = true ∧
    (GHOSTS.all fun g =>
      match g.guaranteed with
      | some gu => decide (gu ∈ g.evidences)
      | none => true) = true ∧
    (GHOSTS.all fun g => !(g.guaranteed.isSome && g.fake.isSome)) = true ∧
    GHOSTS.filter (fun g => g.fake.isSome) = [theMimic] ∧
    theMimic.fake = some EvidenceID.orb ∧
    EvidenceID.orb ∉ theMimic.evidences := by decide

/-- C8 (amended): overwriting with absent an attribute whose prior
state is not present, when that attribute belongs to every remaining
candidate's attribute set, never grows the candidate list. -/
theorem c8_absent_never_grows (j : Journal) (a : EvidenceID)
    (hprior : j.evidences a ≠ EvidenceState.PRESENT)
    (hmem : ∀ g ∈ GHOSTS, g.name ∈ possibleGhosts j → a ∈ g.evidences) :
    ∀ name ∈ possibleGhosts (setAbsent j a), name ∈ possibleGhosts j := by
  intro name hn
  rw [mem_possibleGhosts] at hn ⊢
  obtain ⟨g, ⟨hgG, hp⟩, hname⟩ := hn
  refine ⟨g, ⟨hgG, ?_⟩, hname⟩
  rw [presentIDs_setAbsent j a hprior] at hp
  simp only [ghostPossible, Bool.and_eq_true, decide_eq_true_eq, List.all_eq_true] at hp ⊢
  obtain ⟨⟨⟨⟨h1, h2⟩, h3⟩, h4⟩, h5⟩ := hp
  refine ⟨⟨⟨⟨h1, h2⟩, ?_⟩, ?_⟩, ?_⟩
  · have hlen := absentIDs_filter_length_mono j a (fun e => decide (e ∈ g.evidences))
    simp only [MAX_EVIDENCES] at h3 ⊢
    have havail : (setAbsent j a).availableEvidences = j.availableEvidences := rfl
    rw [havail] at h3
    omega
  · rw [presentIDs_setAbsent j a hprior] at h4
    rcases hgu : g.guaranteed with _ | gu
    · simp [hgu]
    · simp only [hgu] at h4 ⊢
      by_cases hga : gu = a
      · subst hga
        exact absurd h4 (by simp [setAbsent])
      · simpa [setAbsent, hga] using h4
  · rcases hf : g.fake with _ | f
    · simp [hf]
    · simp only [hf, decide_eq_true_eq] at h5 ⊢
      exact fun hfj => h5 (absentIDs_mem_mono j a f hfj)

/-- C8 counterexample: with box, uv and orb present and ceiling 1,
box's attribute trivially belongs to every remaining candidate's
attribute set (the candidate list is empty, and after the change its
only member The Mimic also has box), box's prior state is present, and
changing box to absent grows the candidate list from none to
The Mimic. -/
theorem c8_counterexample :
    (mkJournal [(.box, .PRESENT), (.uv, .PRESENT), (.orb, .PRESENT)] 1).evidences
      EvidenceID.box = EvidenceState.PRESENT ∧
    (∀ g ∈ GHOSTS,
      g.name ∈ possibleGhosts (mkJournal [(.box, .PRESENT), (.uv, .PRESENT), (.orb, .PRESENT)] 1) →
      EvidenceID.box ∈ g.evidences) ∧
    (∀ g ∈ GHOSTS,
      g.name ∈ possibleGhosts
        (setAbsent (mkJournal [(.box, .PRESENT), (.uv, .PRESENT), (.orb, .PRESENT)] 1) .box) →
      EvidenceID.box ∈ g.evidences) ∧
    "The Mimic" ∈ possibleGhosts
      (setAbsent (mkJournal [(.box, .PRESENT), (.uv, .PRESENT), (.orb, .PRESENT)] 1) .box) ∧
    "The Mimic" ∉ possibleGhosts
      (mkJournal [(.box, .PRESENT), (.uv, .PRESENT), (.orb, .PRESENT)] 1) := by decide

/-- Witness for C8: uv and orb present with ceiling 1 leaves only
The Mimic, box is unknown and belongs to its attribute set, and after
setting box absent The Mimic is still possible before as after. -/
theorem c8_witness :
    (mkJournal [(.uv, .PRESENT), (.orb, .PRESENT)] 1).evidences EvidenceID.box ≠
      EvidenceState.PRESENT ∧
    "The Mimic" ∈ possibleGhosts (mkJournal [(.uv, .PRESENT), (.orb, .PRESENT)] 1) :=
  ⟨by decide,
   c8_absent_never_grows (mkJournal [(.uv, .PRESENT), (.orb, .PRESENT)] 1) .box
     (by decide) (by decide) "The Mimic" (by decide)⟩

/-- C1 (amended): for every catalog entry with a guaranteed attribute,
an absent guaranteed attribute excludes the entry, and a not-present
guaranteed attribute together with `ceiling - |presentReal| < 1`
excludes the entry (but the converse of the latter does not hold:
other checks can exclude the entry while capacity remains). In
particular Hantu with ceiling 3 and freezing absent is excluded. -/
theorem c1_guaranteed_check (j : Journal) (g : GhostDef) (gu : EvidenceID)
    (hg : g ∈ GHOSTS) (hgu : g.guaranteed = some gu) :
    (j.evidences gu = EvidenceState.ABSENT → g.name ∉ possibleGhosts j) ∧
    (j.evidences gu ≠ EvidenceState.PRESENT →
      j.availableEvidences -
        (((presentIDs j).filter (fun e => decide (g.fake ≠ some e))).length : Int) < 1 →
      g.name ∉ possibleGhosts j) ∧
    "Hantu" ∉ possibleGhosts (mkJournal [(.freezing, .ABSENT)] 3) := by
  have hfake : g.fake = none := guaranteed_no_fake g hg (by rw [hgu]; rfl)
  have hreal : (presentIDs j).filter (fun e => decide (g.fake ≠ some e)) = presentIDs j := by
    rw [hfake]
    simp
  refine ⟨?_, ?_, by decide⟩
  · intro habs hmem
    have hp := ghostPossible_true_of_mem j g hg hmem
    simp [ghostPossible, hgu, habs] at hp
  · intro hnp hcap hmem
    have hp := ghostPossible_true_of_mem j g hg hmem
    rw [hreal] at hcap
    simp [ghostPossible, hgu, hnp, hcap] at hp

/-- Witness for C1 at the Hantu scenario of the claim: freezing absent,
ceiling 3, all other attributes unknown. -/
theorem c1_witness :
    hantu ∈ GHOSTS ∧ "Hantu" ∉ possibleGhosts (mkJournal [(.freezing, .ABSENT)] 3) :=
  ⟨by decide,
   (c1_guaranteed_check (mkJournal [(.freezing, .ABSENT)] 3) hantu .freezing
     (by decide) rfl).1 (by decide)⟩

/-- C1 counterexample to "excluded exactly when": with emf present,
ceiling 3 and Hantu's guaranteed freezing unknown, the remaining
capacity is 2 (not below 1), yet Hantu is excluded, by the
attribute-membership check. -/
theorem c1_counterexample :
    (mkJournal [(.emf, .PRESENT)] 3).evidences EvidenceID.freezing ≠
      EvidenceState.PRESENT ∧
    ¬((mkJournal [(.emf, .PRESENT)] 3).availableEvidences -
        (((presentIDs (mkJournal [(.emf, .PRESENT)] 3)).filter
          (fun e => decide (hantu.fake ≠ some e))).length : Int) < 1) ∧
    "Hantu" ∉ possibleGhosts (mkJournal [(.emf, .PRESENT)] 3) := by decide

/-- C5 (amended): the ceiling-change handler performs no range check —
it overwrites the ceiling with whatever value the event carries while
leaving every attribute state unchanged; values outside 1..3 are kept
out only upstream, by the select menu offering exactly the values 3, 2
and 1. -/
theorem c5_ceiling_write_unvalidated (s : SessionState) (now : Nat) (v : Int)
    (renderOk : Bool) :
    (onEvidenceCountCollect s now v renderOk).evidences.availableEvidences = v ∧
    (onEvidenceCountCollect s now v renderOk).evidences.evidences = s.evidences.evidences ∧
    evidenceCountOptions.map (fun o => o.value) = ["3", "2", "1"] := by
  refine ⟨?_, ?_, by decide⟩ <;>
    rcases hs : s.idleDeadline with _ | d <;> cases renderOk <;>
      simp [onEvidenceCountCollect, refreshTimeout, updateMessage, terminate, hs]

/-- C5 counterexample: a ceiling-change event carrying 7 (outside
1..3) is not rejected — handling it overwrites the ceiling from 3
to 7, so the session state is mutated. -/
theorem c5_counterexample :
    activeSession.evidences.availableEvidences = 3 ∧
    ¬((7 : Int) = 1 ∨ (7 : Int) = 2 ∨ (7 : Int) = 3) ∧
    (onEvidenceCountCollect activeSession 0 7 true).evidences.availableEvidences = 7 :=
  ⟨rfl, by decide, rfl⟩

/-- C10: for any attribute states and any ceiling in 1..3,
`asComponents` succeeds with exactly 3 action rows (select row plus the
7 buttons chunked into rows of at most 5), below the 5-row message
limit, so the "Too many rows" branch is unreachable. -/
theorem c10_asComponents_three_rows (ev : EvidenceID → EvidenceState) (c : Int)
    (hc : c = 1 ∨ c = 2 ∨ c = 3) :
    ∃ rows, asComponents { evidences := ev, availableEvidences := c } = Except.ok rows ∧
      rows.length = 3 ∧ rows.length ≤ MAX_ACTION_ROWS_PER_MESSAGE := by
  rcases hc with h | h | h <;> subst h <;>
    · refine ⟨_, rfl, rfl, ?_⟩
      show (3 : Nat) ≤ MAX_ACTION_ROWS_PER_MESSAGE
      decide

/-- Witness for C10 at the default journal state (all unknown,
ceiling 3). -/
theorem c10_witness :
    ((3 : Int) = 1 ∨ (3 : Int) = 2 ∨ (3 : Int) = 3) ∧
    ∃ rows,
      asComponents { evidences := fun _ => EvidenceState.INDEFINITE, availableEvidences := 3 } =
        Except.ok rows ∧
      rows.length = 3 ∧ rows.length ≤ MAX_ACTION_ROWS_PER_MESSAGE :=
  ⟨by decide,
   c10_asComponents_three_rows (fun _ => EvidenceState.INDEFINITE) 3 (by decide)⟩
